import Mathlib

/-!
Verification of the core decision components of the clinical intake /
triage / doctor-matching / note-validation pipeline
(`backend/agents/intake_triage_agent.py`, `doctor_matching_agent.py`,
`dual_validator_agent.py`, `reflexion_agent.py`).

Conventions of the shallow embedding:
* Python strings are Lean `String`s; `str.lower()` is `lowerS`
  (ASCII case folding, which covers every string the code compares).
* Python `needle in haystack` is `strIn needle haystack`.
* Python floats are modelled as exact rationals `ℚ`; `round(x, n)` is
  `roundTo n x`, i.e. exact decimal rounding with the half-up rule.
  (Binary floating point can differ from exact decimal semantics only at
  representation ties; no theorem below depends on such a tie.)
* Every call to an LLM collaborator is modelled by an explicit oracle
  value passed in as a parameter: the parsed result of the collaborator
  response, `none`/`[]` meaning the response could not be parsed.
-/

/-- ASCII lower-casing, modelling Python `str.lower()` on the ASCII
strings this code base compares. -/
def lowerS (s : String) : String := String.mk (s.data.map Char.toLower)

/-- `listStartsWith needle l`: `needle` is a prefix of `l`. -/
def listStartsWith : List Char → List Char → Bool
  | [], _ => true
  | _ :: _, [] => false
  | a :: as, b :: bs => a == b && listStartsWith as bs

/-- Substring test on character lists (Python `needle in haystack`).
The empty needle is contained in everything, as in Python. -/
def containsSub (needle : List Char) : List Char → Bool
  | [] => needle.isEmpty
  | c :: rest => listStartsWith needle (c :: rest) || containsSub needle rest

/-- Python `needle in haystack` on strings. -/
def strIn (needle haystack : String) : Bool :=
  containsSub needle.toList haystack.toList

/-- Python `str.split()`: split on whitespace runs, dropping empty pieces. -/
def splitWs (s : String) : List String :=
  ((s.data.splitOnP Char.isWhitespace).map String.mk).filter (fun w => w ≠ "")

/-- Python truthiness of an optional string (`None` and `""` are falsy). -/
def truthyStr : Option String → Bool
  | none => false
  | some s => !s.isEmpty

/-- Python truthiness of an optional list (`None` and `[]` are falsy). -/
def truthyList : Option (List String) → Bool
  | none => false
  | some l => !l.isEmpty

/-- Exact decimal rounding: Python `round(x, d)` with `denom = 10^d`
passed explicitly (e.g. `roundTo 100 x` is `round(x, 2)`). -/
def roundTo (denom : ℕ) (q : ℚ) : ℚ :=
  ((round (q * denom) : ℤ) : ℚ) / denom

/-! ## Intake & triage agent (`intake_triage_agent.py`) -/

/-- `IntakeTriageAgent.RED_FLAG_KEYWORDS` (verbatim, all lower case). -/
def RED_FLAG_KEYWORDS : List String :=
  ["chest pain", "crushing", "can\x27t breathe", "difficulty breathing",
   "severe bleeding", "unconscious", "seizure", "stroke", "paralysis",
   "suicidal", "overdose", "poisoning", "severe allergic", "anaphylaxis",
   "worst headache", "sudden weakness", "vision loss", "facial droop"]

/-- `IntakeTriageAgent._check_red_flags`: case-insensitive substring scan
of the red-flag keyword list. -/
def checkRedFlags (text : String) : Bool :=
  RED_FLAG_KEYWORDS.any (fun flag => strIn flag (lowerS text))

/-- `TriagePriority` enum. -/
inductive TriagePriorityT where
  | red | orange | yellow | green
deriving DecidableEq, Repr

/-- `TriagePriority(value)` construction from a string; Python raises
`ValueError` on an unknown value, modelled as `none`. -/
def priorityOfString (s : String) : Option TriagePriorityT :=
  if s = "red" then some .red
  else if s = "orange" then some .orange
  else if s = "yellow" then some .yellow
  else if s = "green" then some .green
  else none

/-- The `collected_info` dictionary initialised in `process_message`
(each field `None` until filled; `associated_symptoms` is list-valued). -/
structure CollectedInfo where
  chief_complaint : Option String := none
  location : Option String := none
  duration : Option String := none
  severity : Option String := none
  associated_symptoms : Option (List String) := none
  medical_history : Option String := none
  medications_allergies : Option String := none
deriving DecidableEq, Repr

/-- The `symptom_details` dictionary entries written by
`_extract_information`. -/
structure SymptomDetails where
  chief_complaint : Option String := none
  duration : Option String := none
  severity : Option String := none
deriving DecidableEq, Repr

/-- The mutable per-session state of `IntakeSession` that the dynamic
intake flow reads and writes (`conversation_history` entries are
(role, content) pairs; timestamps are not modelled). -/
structure IntakeSessionS where
  session_id : String
  conversation_history : List (String × String) := []
  current_stage : String := "greeting"
  turn_count : ℕ := 0
  max_turns : ℕ := 8
  collected_info : CollectedInfo := {}
  symptoms : List String := []
  symptom_details : SymptomDetails := {}
  triage_priority : Option TriagePriorityT := none
  triage_score : ℤ := 5
  suggested_specialties : List String := []
  preliminary_soap_set : Bool := false
deriving DecidableEq, Repr

/-- Parse result of the extraction LLM call in `_extract_information`
(`none` at the top level = the response was not valid JSON). -/
structure ExtractedInfo where
  chief_complaint : Option String := none
  location : Option String := none
  duration : Option String := none
  severity : Option String := none
  associated_symptoms : Option (List String) := none
  medical_history : Option String := none
  medications_allergies : Option String := none
deriving DecidableEq, Repr

/-- Parse result of the triage LLM call in `_generate_triage`
(each field `none` when the key is absent from the parsed JSON). -/
structure TriageParsed where
  priority : Option String := none
  score : Option ℤ := none
  reasoning : Option String := none
  specialties : Option (List String) := none
  red_flags_detected : Option (List String) := none
  recommendations : Option (List String) := none
deriving DecidableEq, Repr

/-- The dictionary returned by `_generate_triage`. -/
structure TriageResult where
  priority : String
  score : ℤ
  reasoning : String
  specialties : List String
  red_flags : List String
  recommendations : List String
deriving DecidableEq, Repr

/-- `IntakeTriageAgent._generate_triage`, as a function of the parsed
collaborator response: `some p` uses the per-key defaults of the success
branch, `none` is the `except` fallback. -/
def generateTriage (parsed : Option TriageParsed) : TriageResult :=
  match parsed with
  | some p =>
      { priority := p.priority.getD "yellow"
        score := p.score.getD 5
        reasoning := p.reasoning.getD ""
        specialties := p.specialties.getD ["General Medicine"]
        red_flags := p.red_flags_detected.getD []
        recommendations := p.recommendations.getD [] }
  | none =>
      { priority := "yellow"
        score := 5
        reasoning := "Default assessment - please review"
        specialties := ["General Medicine"]
        red_flags := []
        recommendations := [] }

/-- All collaborator responses one `process_message` call can consume,
pre-parsed (`none` = parse failure, triggering the documented fallback). -/
structure IntakeOracle where
  extraction : Option ExtractedInfo := none
  question : Option String := none
  triage : Option TriageParsed := none
  soapOk : Bool := false
deriving DecidableEq, Repr

/-- The merge step of `_extract_information`: non-null parsed fields
overwrite scalars; `associated_symptoms` is unioned
(`list(set(existing + value))`, whose unspecified Python set order is
modelled as order-preserving deduplication). -/
def mergeExtraction (c : CollectedInfo) (e : ExtractedInfo) : CollectedInfo :=
  { chief_complaint := match e.chief_complaint with | some v => some v | none => c.chief_complaint
    location := match e.location with | some v => some v | none => c.location
    duration := match e.duration with | some v => some v | none => c.duration
    severity := match e.severity with | some v => some v | none => c.severity
    associated_symptoms :=
      match e.associated_symptoms with
      | some v => some (((c.associated_symptoms.getD []) ++ v).dedup)
      | none => c.associated_symptoms
    medical_history := match e.medical_history with | some v => some v | none => c.medical_history
    medications_allergies := match e.medications_allergies with | some v => some v | none => c.medications_allergies }

/-- `_extract_information`: on parse success merge the fields and update
`symptoms` / `symptom_details`; on parse failure leave everything as is. -/
def extractInformation (s : IntakeSessionS) (e : Option ExtractedInfo) : IntakeSessionS :=
  match e with
  | none => s
  | some ex =>
      let s := { s with collected_info := mergeExtraction s.collected_info ex }
      let s :=
        match ex.chief_complaint with
        | some cc =>
            if cc ≠ "" then
              { s with symptom_details := { s.symptom_details with chief_complaint := some cc }
                       symptoms := [cc] }
            else s
        | none => s
      let s :=
        match ex.duration with
        | some d =>
            if d ≠ "" then { s with symptom_details := { s.symptom_details with duration := some d } } else s
        | none => s
      match ex.severity with
      | some v =>
          if v ≠ "" then { s with symptom_details := { s.symptom_details with severity := some v } } else s
      | none => s

/-- `IntakeTriageAgent._should_complete_intake`. -/
def shouldCompleteIntake (s : IntakeSessionS) : Bool :=
  let c := s.collected_info
  let has_chief_complaint := c.chief_complaint.isSome
  let has_duration := c.duration.isSome
  let has_severity := c.severity.isSome
  let min_turns_reached := decide (3 ≤ s.turn_count)
  let basic_info_complete := has_chief_complaint && (has_duration || has_severity)
  let has_additional := truthyList c.associated_symptoms || truthyStr c.medical_history
  min_turns_reached && basic_info_complete && (has_additional || decide (5 ≤ s.turn_count))

/-- The completion decision of `process_message` line 170:
`should_complete or session.turn_count >= session.max_turns`. -/
def completionDecision (s : IntakeSessionS) : Bool :=
  shouldCompleteIntake s || decide (s.max_turns ≤ s.turn_count)

/-- The response dictionary a `process_message` call returns; fields that
a given branch does not emit are `none`. Long display strings are kept
as named constants below. -/
structure MsgResponse where
  response : String
  stage : String
  is_emergency : Bool := false
  triage_priority : Option String := none
  triage_score : Option ℤ := none
  action_required : Option String := none
  session_complete : Bool := false
  turn_count : Option ℕ := none
  max_turns : Option ℕ := none
  triage : Option TriageResult := none
deriving DecidableEq, Repr

/-- The fixed urgent-alert text of `_handle_emergency` (display text;
emoji and layout are abbreviated — no theorem depends on it). -/
def emergencyResponseText : String :=
  "URGENT ALERT - Based on what you described, this could be a medical emergency. Call emergency services: 108 or 112."

/-- Fallback follow-up question of `_generate_dynamic_question`. -/
def fallbackQuestionText : String :=
  "Thank you for sharing that. Could you tell me more about your symptoms?"

/-- Completion summary text of `_complete_intake_dynamic` (display text,
abbreviated; no theorem depends on it). -/
def completeResponseText (chief duration severity p spec : String) : String :=
  "Thank you for completing the intake! Main concern: " ++ chief ++
  ". Duration: " ++ duration ++ ". Severity: " ++ severity ++
  ". Triage: " ++ p ++ ". Specialty: " ++ spec ++ ". Type Yes to find available doctors."

/-- `IntakeTriageAgent._handle_emergency`: builds the emergency payload.
The session's `current_stage` is echoed unchanged. -/
def handleEmergency (s : IntakeSessionS) : MsgResponse :=
  { response := emergencyResponseText
    stage := s.current_stage
    is_emergency := true
    triage_priority := some "red"
    triage_score := some 10
    action_required := some "emergency_escalation" }

/-- `IntakeTriageAgent._complete_intake_dynamic`: mark the stage
complete, run triage, record the preliminary SOAP, and build the summary
payload. (`TriagePriority(...)` on a string outside the enum raises in
Python; here the session field simply stays `none` in that case.) -/
def completeIntakeDynamic (o : IntakeOracle) (s : IntakeSessionS) :
    IntakeSessionS × MsgResponse :=
  let s := { s with current_stage := "complete" }
  let tr := generateTriage o.triage
  let s := { s with
    triage_priority := priorityOfString tr.priority
    triage_score := tr.score
    suggested_specialties := tr.specialties
    preliminary_soap_set := true }
  let chief := (s.collected_info.chief_complaint.filter (fun v => !v.isEmpty)).getD "Symptoms described"
  let duration := (s.collected_info.duration.filter (fun v => !v.isEmpty)).getD "Not specified"
  let severity := (s.collected_info.severity.filter (fun v => !v.isEmpty)).getD "Not specified"
  let spec := s.suggested_specialties.headD "General Medicine"
  (s, { response := completeResponseText chief duration severity tr.priority spec
        stage := "complete"
        triage := some tr
        session_complete := true
        turn_count := some s.turn_count
        max_turns := some s.max_turns })

/-- `IntakeTriageAgent._generate_dynamic_question`: parsed collaborator
question, or the generic fallback. -/
def generateDynamicQuestion (o : IntakeOracle) (s : IntakeSessionS) :
    IntakeSessionS × MsgResponse :=
  let response := o.question.getD fallbackQuestionText
  (s, { response := response
        stage := "active"
        turn_count := some s.turn_count
        max_turns := some s.max_turns })

/-- `IntakeTriageAgent.process_message` for an existing session: append
the user message, bump the turn counter, run the red-flag check first,
then extraction, the completion decision and the follow-up branch.
Returns the updated session and the response payload. -/
def processMessage (o : IntakeOracle) (s : IntakeSessionS) (msg : String) :
    IntakeSessionS × MsgResponse :=
  let s1 := { s with
    turn_count := s.turn_count + 1
    conversation_history := s.conversation_history ++ [("user", msg)] }
  if checkRedFlags msg then
    let s2 := { s1 with triage_priority := some .red, triage_score := 10 }
    (s2, handleEmergency s2)
  else
    let s2 := extractInformation s1 o.extraction
    let (s3, resp) :=
      if shouldCompleteIntake s2 || decide (s2.max_turns ≤ s2.turn_count) then
        completeIntakeDynamic o s2
      else
        generateDynamicQuestion o s2
    ({ s3 with conversation_history := s3.conversation_history ++ [("assistant", resp.response)] },
     resp)

/-! ## Dual validator agent (`dual_validator_agent.py`) -/

/-- A SOAP note as consumed by the validator: the four fixed sections,
each defaulting to `""` as `soap_note.get(section, "")` does. -/
structure Soap where
  subjective : String := ""
  objective : String := ""
  assessment : String := ""
  plan : String := ""
deriving DecidableEq, Repr

/-- `ValidationLevel` enum. -/
inductive VLevel where
  | pass | warning | error
deriving DecidableEq, Repr

/-- `ValidationIssue` dataclass. -/
structure VIssue where
  level : VLevel
  category : String
  sectionName : String
  message : String
  suggestion : String := ""
deriving DecidableEq, Repr

/-- A contradiction reported by the `_detect_contradictions` LLM call:
(description, sections, suggestion), each already defaulted the way the
code defaults missing keys. -/
structure Contradiction where
  description : String := "Clinical contradiction detected"
  sections : String := "Multiple"
  suggestion : String := "Review and correct the contradiction"
deriving DecidableEq, Repr

/-- A medication/diagnosis alignment issue from `_check_medication_alignment`
(type, item, concern as parsed). -/
structure AlignIssue where
  type : String := "Issue"
  item : String := ""
  concern : String := ""
deriving DecidableEq, Repr

/-- Parsed results of every LLM call `validate_soap` may make. An empty
list doubles as the documented parse-failure fallback of each call. -/
structure ValOracle where
  contradictions : List Contradiction := []
  complaints : List String := []
  planMeds : List String := []
  keyInfo : List String := []
  alignIssues : List AlignIssue := []
deriving DecidableEq, Repr

/-- `MIN_SECTION_LENGTH` table, as the section list
`[(name, accessor, min_len)]` the structural pass iterates over. -/
def soapSections (n : Soap) : List (String × String × ℕ) :=
  [("Subjective", n.subjective, 50), ("Objective", n.objective, 30),
   ("Assessment", n.assessment, 20), ("Plan", n.plan, 20)]

/-- `str.strip()` on the character list. -/
def trimL (l : List Char) : List Char :=
  ((l.dropWhile Char.isWhitespace).reverse.dropWhile Char.isWhitespace).reverse

/-- Python `not content or content.strip() == ""` (for a string the two
disjuncts collapse to one trim test). -/
def blankSec (content : String) : Bool := (trimL content.data).isEmpty

/-- Structural check 1 for one section: missing/empty → error and −0.25;
shorter than the minimum length → warning and −0.10. Returns the
deduction and the issues it raises. -/
def sectionCheck (sec : String × String × ℕ) : ℚ × List VIssue :=
  let (name, content, minLen) := sec
  if blankSec content then
    (1/4, [{ level := .error, category := "structural", sectionName := name
             message := name ++ " section is missing or empty"
             suggestion := "Add content to the " ++ name ++ " section" }])
  else if content.length < minLen then
    (1/10, [{ level := .warning, category := "structural", sectionName := name
              message := name ++ " section seems incomplete (" ++ toString content.length ++ " chars)"
              suggestion := "Expand the " ++ name ++ " section with more detail" }])
  else (0, [])

/-- Structural check 2: a chief complaint (from the extraction oracle;
`[]` when Subjective is empty, as `_extract_chief_complaints`
short-circuits) is "unaddressed" when it appears in neither the lowered
Assessment nor Plan, by substring or by any-word overlap. -/
def ccUnaddressed (assessmentL planL : String) (complaint : String) : Bool :=
  let cl := lowerS complaint
  !strIn cl assessmentL && !strIn cl planL &&
    !(splitWs cl).any (fun w => strIn w assessmentL || strIn w planL)

/-- Structural check 3: a Plan medication with no word overlapping the
lowered Assessment text. -/
def medUnindicated (assessmentL : String) (item : String) : Bool :=
  !(splitWs (lowerS item)).any (fun w => strIn w assessmentL)

/-- `DualValidatorAgent._validate_structural`: returns
(clamped score, issues in emission order). -/
def validateStructural (o : ValOracle) (n : Soap) : ℚ × List VIssue :=
  let checks := (soapSections n).map sectionCheck
  let secDed : ℚ := (checks.map Prod.fst).sum
  let secIssues := (checks.map Prod.snd).flatten
  let assessmentL := lowerS n.assessment
  let planL := lowerS n.plan
  let complaints := if n.subjective = "" then [] else o.complaints
  let badCC := complaints.filter (ccUnaddressed assessmentL planL)
  let ccIssues : List VIssue := badCC.map (fun c =>
    { level := .warning, category := "structural", sectionName := "Assessment"
      message := "Chief complaint " ++ c ++ " not addressed in Assessment/Plan"
      suggestion := "Ensure " ++ c ++ " is addressed in Assessment or Plan" })
  let meds := if n.plan = "" then [] else o.planMeds
  let badMeds := meds.filter (medUnindicated assessmentL)
  let medIssues : List VIssue := badMeds.map (fun m =>
    { level := .warning, category := "structural", sectionName := "Plan"
      message := "Medication " ++ m ++ " has no clear indication in Assessment"
      suggestion := "Add diagnosis/indication for " ++ m ++ " in Assessment" })
  let orphan := n.plan ≠ "" ∧ n.assessment = ""
  let orphanIssues : List VIssue :=
    if orphan then
      [{ level := .error, category := "structural", sectionName := "Assessment"
         message := "Plan exists but Assessment is missing"
         suggestion := "Add Assessment before creating a Plan" }]
    else []
  let ded : ℚ := secDed + (1/20) * badCC.length + (1/20) * badMeds.length +
    (if orphan then 3/20 else 0)
  (max 0 (1 - ded), secIssues ++ ccIssues ++ medIssues ++ orphanIssues)

/-- `" ".join(soap_note.values())` over the four fixed sections. -/
def joinSoap (n : Soap) : String :=
  n.subjective ++ " " ++ n.objective ++ " " ++ n.assessment ++ " " ++ n.plan

/-- Concept coverage test of `_validate_clinical`: the lowered symptom is
a substring of the lowered SOAP text, or some of its words longer than 3
characters is. -/
def symptomCovered (soapTextL : String) (symptom : String) : Bool :=
  let sl := lowerS symptom
  strIn sl soapTextL || (splitWs sl).any (fun w => 3 < w.length && strIn w soapTextL)

/-- `DualValidatorAgent._validate_clinical`: returns
(clamped score, issues, concept-coverage pairs). `conversation` carries
(role, content) pairs; `symptoms` is the `extracted_symptoms` argument. -/
def validateClinical (o : ValOracle) (n : Soap)
    (conversation : Option (List (String × String)))
    (symptoms : Option (List String)) : ℚ × List VIssue × List (String × Bool) :=
  let contraIssues : List VIssue := o.contradictions.map (fun c =>
    { level := .error, category := "clinical", sectionName := c.sections
      message := c.description, suggestion := c.suggestion })
  let soapTextL := lowerS (joinSoap n)
  let syms := if truthyList symptoms then symptoms.getD [] else []
  let coverage := syms.map (fun s => (s, symptomCovered soapTextL s))
  let uncovered := syms.filter (fun s => !symptomCovered soapTextL s)
  let symIssues : List VIssue := uncovered.map (fun s =>
    { level := .warning, category := "clinical", sectionName := "Subjective"
      message := "Reported symptom " ++ s ++ " not found in SOAP note"
      suggestion := "Include " ++ s ++ " in the Subjective section" })
  let keyInfo :=
    match conversation with
    | none => []
    | some conv =>
        if conv.isEmpty then []
        else if (conv.filter (fun m : String × String => m.1 = "user")).isEmpty then []
        else o.keyInfo
  let uncapturedInfo := keyInfo.filter (fun info => !symptomCovered soapTextL info)
  let infoIssues : List VIssue := uncapturedInfo.map (fun info =>
    { level := .warning, category := "clinical", sectionName := "Subjective"
      message := "Patient-reported information not captured: " ++ info
      suggestion := "Ensure all relevant patient information is documented" })
  let aligns := if n.plan ≠ "" ∧ n.assessment ≠ "" then o.alignIssues else []
  let alignIssues : List VIssue := aligns.map (fun a =>
    { level := .warning, category := "clinical", sectionName := "Plan"
      message := a.type ++ ": " ++ a.item ++ " - " ++ a.concern
      suggestion := "Review medication-diagnosis alignment" })
  let ded : ℚ := (3/20) * o.contradictions.length + (1/20) * uncovered.length +
    (3/100) * uncapturedInfo.length + (1/20) * aligns.length
  (max 0 (1 - ded), contraIssues ++ symIssues ++ infoIssues ++ alignIssues, coverage)

/-- `DualValidatorAgent._calculate_completeness`. -/
def calculateCompleteness (n : Soap) : ℚ :=
  ((soapSections n).map (fun sec =>
    let (_, content, minLen) := sec
    if content ≠ "" then
      (min 1 ((content.length : ℚ) / (minLen * 2))) * (1/4)
    else (0 : ℚ))).sum

/-- `ValidationResult` (suggestions mirror `_generate_suggestions`,
with Python's unspecified `set` iteration order modelled as
order-preserving deduplication). -/
structure ValResult where
  is_valid : Bool
  structural_score : ℚ
  clinical_score : ℚ
  completeness_score : ℚ
  overall_score : ℚ
  issues : List VIssue
  suggestions : List String
  concept_coverage : List (String × Bool)
deriving DecidableEq, Repr

/-- `DualValidatorAgent._generate_suggestions`. -/
def generateSuggestions (issues : List VIssue) : List String :=
  let structuralCount := (issues.filter (fun i => i.category = "structural")).length
  let clinicalCount := (issues.filter (fun i => i.category = "clinical")).length
  let errorCount := (issues.filter (fun i => i.level = .error)).length
  (if 0 < errorCount then
    [toString errorCount ++ " critical issue(s) need immediate attention"] else []) ++
  (if 2 < structuralCount then
    ["Review SOAP structure - ensure all sections are complete and connected"] else []) ++
  (if 2 < clinicalCount then
    ["Review clinical content - ensure all patient information is accurately captured"] else []) ++
  (((issues.filter (fun i => i.suggestion ≠ "")).map (fun i => i.suggestion)).dedup.take 5)

/-- `DualValidatorAgent.validate_soap`: structural + clinical +
completeness scoring, the 40/40/20 weighting, validity decision, and the
two-decimal rounding of all returned scores. -/
def validateSoap (o : ValOracle) (n : Soap)
    (conversation : Option (List (String × String)) := none)
    (symptoms : Option (List String) := none) : ValResult :=
  let (structuralScore, structuralIssues) := validateStructural o n
  let (clinicalScore, clinicalIssues, coverage) := validateClinical o n conversation symptoms
  let completenessScore := calculateCompleteness n
  let overallScore := (2/5) * structuralScore + (2/5) * clinicalScore + (1/5) * completenessScore
  let issues := structuralIssues ++ clinicalIssues
  let hasErrors := issues.any (fun i => i.level = .error)
  { is_valid := decide ((7:ℚ)/10 ≤ overallScore) && !hasErrors
    structural_score := roundTo 100 structuralScore
    clinical_score := roundTo 100 clinicalScore
    completeness_score := roundTo 100 completenessScore
    overall_score := roundTo 100 overallScore
    issues := issues
    suggestions := generateSuggestions issues
    concept_coverage := coverage }

/-! ## Doctor matching agent (`doctor_matching_agent.py`) -/

/-- `Doctor` dataclass (the `availability` map is never read by the
matching logic and is omitted). -/
structure Doctor where
  id : String
  name : String
  specialty : String
  subspecialty : Option String
  qualifications : List String := []
  languages : List String := ["English"]
  experience_years : ℕ
  current_load : ℕ
  max_load : ℕ
  consultation_fee : ℚ := 500
  is_available : Bool
  is_online : Bool
  rating : ℚ
deriving DecidableEq, Repr

/-- `Doctor.load_percentage` property. -/
def loadPercentage (d : Doctor) : ℚ :=
  if 0 < d.max_load then (d.current_load : ℚ) / d.max_load * 100 else 100

/-- `MatchResult` dataclass. -/
structure MatchResultS where
  doctor : Doctor
  match_score : ℚ
  match_reasons : List String
  available_slots : List String
  estimated_wait_time : String
deriving DecidableEq, Repr

/-- `SPECIALTY_MAPPING` keyword table, in source (= Python dict
iteration) order. -/
def SPECIALTY_MAPPING : List (String × String) :=
  [("chest pain", "Cardiology"), ("heart", "Cardiology"),
   ("palpitations", "Cardiology"), ("blood pressure", "Cardiology"),
   ("hypertension", "Cardiology"),
   ("breathing", "Pulmonology"), ("cough", "Pulmonology"),
   ("asthma", "Pulmonology"), ("wheezing", "Pulmonology"),
   ("shortness of breath", "Pulmonology"),
   ("headache", "Neurology"), ("migraine", "Neurology"),
   ("seizure", "Neurology"), ("numbness", "Neurology"),
   ("dizziness", "Neurology"), ("stroke", "Neurology"),
   ("joint pain", "Orthopedics"), ("back pain", "Orthopedics"),
   ("fracture", "Orthopedics"), ("spine", "Orthopedics"),
   ("knee", "Orthopedics"), ("shoulder", "Orthopedics"),
   ("stomach", "Gastroenterology"), ("abdominal pain", "Gastroenterology"),
   ("nausea", "Gastroenterology"), ("vomiting", "Gastroenterology"),
   ("diarrhea", "Gastroenterology"), ("liver", "Gastroenterology"),
   ("skin", "Dermatology"), ("rash", "Dermatology"),
   ("acne", "Dermatology"), ("itching", "Dermatology"),
   ("diabetes", "Endocrinology"), ("thyroid", "Endocrinology"),
   ("hormone", "Endocrinology"),
   ("depression", "Psychiatry"), ("anxiety", "Psychiatry"),
   ("stress", "Psychiatry"), ("mental", "Psychiatry"),
   ("sleep", "Psychiatry"),
   ("fever", "General Medicine"), ("cold", "General Medicine"),
   ("flu", "General Medicine"), ("fatigue", "General Medicine")]

/-- Parse result of the specialty-classification LLM call in
`determine_specialty`. -/
structure SpecialtyParsed where
  primary_specialty : Option String := none
  secondary_specialty : Option String := none
deriving DecidableEq, Repr

/-- `DoctorMatchingAgent.determine_specialty`: keyword scan over the
mapping table; when it yields zero or more than two specialties the LLM
oracle decides (parse failure → `["General Medicine"]`); at most two
specialties are returned. -/
def determineSpecialty (o : Option SpecialtyParsed) (symptoms : List String) :
    List String :=
  let symptomsText := lowerS (String.intercalate " " symptoms)
  let matched := SPECIALTY_MAPPING.foldl (fun acc kv =>
    if strIn kv.1 symptomsText && !acc.contains kv.2 then acc ++ [kv.2] else acc) []
  let matched :=
    if matched.isEmpty || decide (2 < matched.length) then
      match o with
      | some p =>
          [p.primary_specialty.getD "General Medicine"] ++
          (match p.secondary_specialty with
           | some s => if s ≠ "" then [s] else []
           | none => [])
      | none => ["General Medicine"]
    else matched
  matched.take 2

/-- The wall-clock inputs of slot generation (`datetime.now()`):
the current hour, and `strftime("%A")` of the day `i` days from now. -/
structure NowInfo where
  hour : ℕ
  dayName : ℕ → String

/-- `DoctorMatchingAgent._get_available_slots` (the `doctor` argument is
accepted and ignored, exactly as in the source; every branch is capped
by the final `slots[:5]`). -/
def getAvailableSlots (now : NowInfo) (doctor : Doctor) (triagePriority : String) :
    List String :=
  let _ := doctor
  (if triagePriority = "red" then
    ["Immediate", "Within 15 minutes"]
  else if triagePriority = "orange" then
    ((List.range' (now.hour + 1) (18 - (now.hour + 1))).map
      (fun h => "Today at " ++ toString h ++ ":00")).take 3
  else if triagePriority = "yellow" then
    ((List.range' (now.hour + 2) (18 - (now.hour + 2))).map
      (fun h => "Today at " ++ toString h ++ ":00")).take 2 ++
    ["Tomorrow at 09:00", "Tomorrow at 11:00"]
  else
    (List.range' 1 3).flatMap (fun i =>
      [now.dayName i ++ " at 10:00", now.dayName i ++ " at 14:00"])).take 5

/-- `DoctorMatchingAgent._estimate_wait_time` (Python `//` is `Nat.div`). -/
def estimateWaitTime (d : Doctor) (triagePriority : String) : String :=
  if triagePriority = "red" then "Immediate"
  else
    let baseWait := d.current_load * 15
    if triagePriority = "orange" then
      "~" ++ toString (max 15 (baseWait / 2)) ++ " minutes"
    else if triagePriority = "yellow" then
      "~" ++ toString (max 1 (baseWait / 60)) ++ " hour(s)"
    else
      "~" ++ toString (max 1 (d.current_load / 10)) ++ " day(s)"

/-- The specialty filter/base-score step of `find_matching_doctors`:
exact (case-insensitive) specialty match scores 40, a non-empty
subspecialty (Python truthiness) containing the required specialty
scores 35, otherwise the doctor is skipped. -/
def specialtyBase (d : Doctor) (requiredSpecialty : String) :
    Option (ℚ × List String) :=
  if lowerS d.specialty = lowerS requiredSpecialty then
    some (40, ["Specialty match: " ++ d.specialty])
  else
    match d.subspecialty with
    | some sub =>
        if sub ≠ "" ∧ strIn (lowerS requiredSpecialty) (lowerS sub) then
          some (35, ["Subspecialty match: " ++ sub])
        else none
    | none => none

/-- The per-doctor body of the `find_matching_doctors` loop: the
availability and capacity filters, the scoring factors with their
reason clauses, slots and wait time. `none` = the doctor is skipped.
(When `max_load = 0` the Python load division raises; rational division
makes it 0 — no theorem uses that corner.) -/
def scoreDoctor (now : NowInfo) (requiredSpecialty triagePriority : String)
    (preferredLanguage : Option String) (d : Doctor) : Option MatchResultS :=
  if !d.is_available then none
  else if d.max_load ≤ d.current_load ∧ triagePriority ≠ "red" then none
  else
    match specialtyBase d requiredSpecialty with
    | none => none
    | some (base, baseReasons) =>
        let loadScore : ℚ := 25 * (1 - (d.current_load : ℚ) / d.max_load)
        let loadReasons := if loadPercentage d < 50 then ["Low current workload"] else []
        let expScore : ℚ := min 15 (d.experience_years : ℚ)
        let expReasons :=
          if 10 ≤ d.experience_years then
            ["Highly experienced (" ++ toString d.experience_years ++ " years)"] else []
        let ratingScore : ℚ := d.rating / 5 * 10
        let ratingReasons :=
          if (9:ℚ)/2 ≤ d.rating then ["Excellent rating"] else []
        let langScore : ℚ :=
          match preferredLanguage with
          | some lang => if d.languages.contains lang then 5 else 0
          | none => 0
        let langReasons :=
          match preferredLanguage with
          | some lang => if d.languages.contains lang then ["Speaks " ++ lang] else []
          | none => []
        let onlineScore : ℚ := if d.is_online then 5 else 0
        let onlineReasons := if d.is_online then ["Currently online"] else []
        some
          { doctor := d
            match_score := roundTo 10
              (base + loadScore + expScore + ratingScore + langScore + onlineScore)
            match_reasons := baseReasons ++ loadReasons ++ expReasons ++
              ratingReasons ++ langReasons ++ onlineReasons
            available_slots := getAvailableSlots now d triagePriority
            estimated_wait_time := estimateWaitTime d triagePriority }

/-- Stable insertion into a descending-score list: the new element goes
after every earlier element of greater-or-equal score, mirroring the
stability of Python's `list.sort(..., reverse=True)`. -/
def insertByScoreDesc (x : MatchResultS) : List MatchResultS → List MatchResultS
  | [] => [x]
  | y :: ys =>
      if y.match_score < x.match_score then x :: y :: ys
      else y :: insertByScoreDesc x ys

/-- Stable descending sort by `match_score` (extensionally Python's
stable `sort(key=lambda x: x.match_score, reverse=True)`). -/
def sortByScoreDesc (l : List MatchResultS) : List MatchResultS :=
  l.foldl (fun acc x => insertByScoreDesc x acc) []

/-- `DoctorMatchingAgent.find_matching_doctors`. -/
def findMatchingDoctors (cache : List Doctor) (now : NowInfo)
    (requiredSpecialty : String) (triagePriority : String := "green")
    (preferredLanguage : Option String := none) (maxResults : ℕ := 5) :
    List MatchResultS :=
  (sortByScoreDesc
    (cache.filterMap (scoreDoctor now requiredSpecialty triagePriority preferredLanguage))).take
    maxResults

/-- The dictionary `get_best_match` returns (`recommended` carries the
best `MatchResult`; the success branch's flattened doctor fields and the
alternatives list are recoverable from `matches`, kept here directly). -/
structure BestMatch where
  success : Bool
  message : Option String := none
  suggested_specialty : Option String := none
  recommended : Option MatchResultS := none
  alternatives : List MatchResultS := []
  matched_specialty : Option String := none
  alternative_specialty : Option String := none
deriving Repr

/-- `DoctorMatchingAgent.get_best_match`: specialty resolution, the
primary → secondary → General Medicine fallback cascade, and the failure
result naming the originally suggested specialty. -/
def getBestMatch (o : Option SpecialtyParsed) (cache : List Doctor) (now : NowInfo)
    (symptoms : List String) (triagePriority : String := "green")
    (preferredLanguage : Option String := none) : BestMatch :=
  let specialties := determineSpecialty o symptoms
  let primarySpecialty := specialties.headD "General Medicine"
  let m1 := findMatchingDoctors cache now primarySpecialty triagePriority preferredLanguage
  let finalMatches :=
    if m1.isEmpty then
      let m2 :=
        match specialties with
        | _ :: second :: _ =>
            findMatchingDoctors cache now second triagePriority preferredLanguage
        | _ => []
      if m2.isEmpty then
        findMatchingDoctors cache now "General Medicine" triagePriority preferredLanguage
      else m2
    else m1
  match finalMatches with
  | [] =>
      { success := false
        message := some "No available doctors found. Please try again later."
        suggested_specialty := some primarySpecialty }
  | best :: rest =>
      { success := true
        recommended := some best
        alternatives := rest.take 3
        matched_specialty := some primarySpecialty
        alternative_specialty := specialties[1]? }

/-! ## Reflexion agent (`reflexion_agent.py`)

`_calculate_edit_distance` joins each SOAP dict's values with `" "` and
takes `1 - difflib.SequenceMatcher(None, a, b).ratio()`, rounded to three
decimals. `SequenceMatcher.ratio` is `2·M/(len a + len b)` (or `1.0`
when both are empty), where `M` totals the Ratcliff/Obershelp matching
blocks: recursively take the longest matching block — of all maximal
blocks the one starting earliest in `a`, then earliest in `b` — and
recurse on the pieces to its left and right. The junk heuristics are
inactive here (no junk predicate, autojunk needs 200+ characters). -/

/-- Length of the longest common prefix of two character lists: the
largest `k` with `a[i:i+k] == b[j:j+k]` once suffixes are taken. -/
def cpl : List Char → List Char → ℕ
  | a :: as, b :: bs => if a = b then cpl as bs + 1 else 0
  | _, _ => 0

/-- All candidate block starts `(i, j)`, `i ≤ la`, `j ≤ lb`, in
lexicographic order. -/
def pairsUpTo (la lb : ℕ) : List (ℕ × ℕ) :=
  (List.range (la + 1)).flatMap (fun i => (List.range (lb + 1)).map (fun j => (i, j)))

/-- The match length of candidate start `p` in `a`, `b`. -/
def kOf (a b : List Char) (p : ℕ × ℕ) : ℕ := cpl (a.drop p.1) (b.drop p.2)

/-- One step of the longest-match scan: keep the incumbent unless the
candidate is strictly longer (so the lexicographically earliest maximal
block wins, `find_longest_match`'s documented tie-break). -/
def flmStep (a b : List Char) (st : ℕ × ℕ × ℕ) (p : ℕ × ℕ) : ℕ × ℕ × ℕ :=
  let k := kOf a b p
  if st.2.2 < k then (p.1, p.2, k) else st

/-- `SequenceMatcher.find_longest_match` over full sequences:
`(i, j, size)` of the earliest maximal matching block. -/
def flm (a b : List Char) : ℕ × ℕ × ℕ :=
  (pairsUpTo a.length b.length).foldl (flmStep a b) (0, 0, 0)

/-- Total size of all Ratcliff/Obershelp matching blocks
(`get_matching_blocks`' recursion, fuelled by `la + lb`; the fuel is
sufficient, see `matchesAux_fuel_free` below). -/
def matchesAux : ℕ → List Char → List Char → ℕ
  | 0, _, _ => 0
  | _ + 1, [], _ => 0
  | _ + 1, _ :: _, [] => 0
  | fuel + 1, a@(_ :: _), b@(_ :: _) =>
      let (i, j, k) := flm a b
      if k = 0 then 0
      else
        matchesAux fuel (a.take i) (b.take j) + k +
        matchesAux fuel (a.drop (i + k)) (b.drop (j + k))

/-- Total matched characters between two sequences. -/
def matchesTotal (a b : List Char) : ℕ :=
  matchesAux (a.length + b.length) a b

/-- `SequenceMatcher.ratio()`: `2·M/T`, or `1.0` for two empty
sequences. -/
def similarity (a b : List Char) : ℚ :=
  if a.length + b.length = 0 then 1
  else 2 * (matchesTotal a b : ℚ) / ((a.length : ℚ) + (b.length : ℚ))

/-- A SOAP dict as `log_edit` receives it: ordered (section, text)
pairs. -/
abbrev SoapDict : Type := List (String × String)

/-- `" ".join(soap.values())`. -/
def joinVals (d : SoapDict) : String :=
  String.intercalate " " (d.map (fun kv => kv.2))

/-- `ReflexionAgent._calculate_edit_distance`:
`round(1 - SequenceMatcher(None, a, b).ratio(), 3)`. -/
def calculateEditDistance (original edited : SoapDict) : ℚ :=
  roundTo 1000 (1 - similarity (joinVals original).toList (joinVals edited).toList)

/-! ## Spec-side definitions

Definitions below transcribe the *specification's* wording (not the
source); theorems compare them with the source-derived definitions
above. -/

/-- The completion predicate in the words of the spec:
`turn_count ≥ 3 AND chief_complaint present AND (duration present OR
severity present) AND (any of {associated_symptoms, medical_history}
present OR turn_count ≥ 5)`, OR `turn_count ≥ max_turns`.
"Present" is read as the code reads it: scalars are present when
non-null, the additional-info fields when non-null and non-empty. -/
def specCompletionPredicate (s : IntakeSessionS) : Bool :=
  (decide (3 ≤ s.turn_count) &&
    (s.collected_info.chief_complaint.isSome &&
      (s.collected_info.duration.isSome || s.collected_info.severity.isSome)) &&
    (truthyList s.collected_info.associated_symptoms ||
      truthyStr s.collected_info.medical_history ||
      decide (5 ≤ s.turn_count))) ||
  decide (s.max_turns ≤ s.turn_count)

/-- The match-score formula in the words of the spec (§4.4 / C3), before
the rounding the source applies: 40 for an exact specialty match else 35
for a subspecialty match, plus `25·(1 − load/max)`, plus
`min(15, experience)`, plus `(rating/5)·10`, plus 5 for a language
match, plus 5 when online. -/
def specMatchScoreFormula (d : Doctor) (base : ℚ)
    (preferredLanguage : Option String) : ℚ :=
  base + 25 * (1 - (d.current_load : ℚ) / d.max_load) +
  min 15 (d.experience_years : ℚ) + d.rating / 5 * 10 +
  (match preferredLanguage with
   | some lang => if d.languages.contains lang then 5 else 0
   | none => 0) +
  (if d.is_online then 5 else 0)

/-! ## Concrete fixtures used by the example theorems -/

/-- An oracle whose every collaborator response failed to parse. -/
def o0 : IntakeOracle := {}

/-- A fresh intake session, as `create_session` plus the first-message
initialisation leaves it. -/
def s0 : IntakeSessionS := { session_id := "s1" }

/-- A session that has collected a chief complaint and a duration and is
at turn `t`. -/
def sCCDur (t : ℕ) : IntakeSessionS :=
  { session_id := "s2", turn_count := t,
    collected_info := { chief_complaint := some "headache", duration := some "2 days" } }

/-- A session that has collected only a chief complaint and is at
turn `t`. -/
def sOnlyCC (t : ℕ) : IntakeSessionS :=
  { session_id := "s3", turn_count := t,
    collected_info := { chief_complaint := some "headache" } }

/-- A fixed clock: 10 o'clock, with named week days for the next days. -/
def now0 : NowInfo :=
  ⟨10, fun i => ["Sunday", "Monday", "Tuesday", "Wednesday"].getD i "Day"⟩

/-- The Cardiology doctor of the spec's worked example: load 5/20,
15 years of experience, rating 4.8, online. -/
def cardioDoc : Doctor :=
  { id := "c1", name := "Dr. Asha Rao", specialty := "Cardiology",
    subspecialty := none, qualifications := [], languages := ["English"],
    experience_years := 15, current_load := 5, max_load := 20,
    is_available := true, is_online := true, rating := 24/5 }

/-- The match result `find_matching_doctors` produces for `cardioDoc`
with specialty Cardiology, priority green and no language preference. -/
def cardioMR : MatchResultS :=
  { doctor := cardioDoc
    match_score := 442/5
    match_reasons := ["Specialty match: Cardiology", "Low current workload",
      "Highly experienced (15 years)", "Excellent rating", "Currently online"]
    available_slots := ["Monday at 10:00", "Monday at 14:00", "Tuesday at 10:00",
      "Tuesday at 14:00", "Wednesday at 10:00"]
    estimated_wait_time := "~1 day(s)" }

/-- The General Medicine doctor of the fallback-cascade example:
load 3/25, 8 years of experience, rating 4.7, offline. -/
def gmDoc : Doctor :=
  { id := "g1", name := "Dr. Kiran Patel", specialty := "General Medicine",
    subspecialty := none, qualifications := [], languages := ["English"],
    experience_years := 8, current_load := 3, max_load := 25,
    is_available := true, is_online := false, rating := 47/10 }

/-- The match result `find_matching_doctors` produces for `gmDoc` with
specialty General Medicine, priority green and no language preference. -/
def gmMR : MatchResultS :=
  { doctor := gmDoc
    match_score := 397/5
    match_reasons := ["Specialty match: General Medicine", "Low current workload",
      "Excellent rating"]
    available_slots := ["Monday at 10:00", "Monday at 14:00", "Tuesday at 10:00",
      "Tuesday at 14:00", "Wednesday at 10:00"]
    estimated_wait_time := "~1 day(s)" }

/-- An oracle for the validator whose every collaborator response failed
to parse (or reported nothing). -/
def oV : ValOracle := {}

/-- A SOAP note whose only content is a three-character Subjective. -/
def soapAbc : Soap := { subjective := "abc" }

/-- The all-empty SOAP note. -/
def soapEmpty : Soap := {}

/-- A standard four-section SOAP dict, every section text `"a"`. -/
def dictA : SoapDict :=
  [("Subjective", "a"), ("Objective", "a"), ("Assessment", "a"), ("Plan", "a")]

/-- A standard four-section SOAP dict, every section text `"b"` —
its section texts share no character with `dictA`'s. -/
def dictB : SoapDict :=
  [("Subjective", "b"), ("Objective", "b"), ("Assessment", "b"), ("Plan", "b")]

/-- A single-section SOAP dict. -/
def dictC : SoapDict := [("Subjective", "ab")]

/-- A single-section SOAP dict sharing no character with `dictC`. -/
def dictD : SoapDict := [("Subjective", "xyz")]

/-- Character-disjointness of two strings (the hypothesis under which
the edit distance reaches 1). -/
def disjointChars (s t : String) : Bool :=
  s.toList.all (fun c => !(t.toList.contains c))

/-! ## Helper lemmas: rounding -/

theorem round_mono_q {x y : ℚ} (h : x ≤ y) : round x ≤ round y := by
  rw [round_eq, round_eq]
  exact Int.floor_le_floor (by linarith)

theorem roundTo_mono (d : ℕ) (hd : 0 < d) {x y : ℚ} (h : x ≤ y) :
    roundTo d x ≤ roundTo d y := by
  have hd' : (0 : ℚ) < d := by exact_mod_cast hd
  have hr : round (x * d) ≤ round (y * d) :=
    round_mono_q (mul_le_mul_of_nonneg_right h (le_of_lt hd'))
  unfold roundTo
  have hr' : ((round (x * d) : ℤ) : ℚ) ≤ ((round (y * d) : ℤ) : ℚ) := by exact_mod_cast hr
  gcongr

theorem roundTo_intCast (d : ℕ) (hd : 0 < d) (z : ℤ) :
    roundTo d (z : ℚ) = z := by
  have hd' : (d : ℚ) ≠ 0 := by exact_mod_cast hd.ne'
  have hz : ((z : ℚ) * d) = ((z * d : ℤ) : ℚ) := by push_cast; ring
  unfold roundTo
  rw [hz, round_intCast]
  push_cast
  field_simp

theorem roundTo_le_intCast (d : ℕ) (hd : 0 < d) {q : ℚ} (z : ℤ)
    (h : q ≤ (z : ℚ)) : roundTo d q ≤ (z : ℚ) := by
  have := roundTo_mono d hd h
  rwa [roundTo_intCast d hd z] at this

theorem intCast_le_roundTo (d : ℕ) (hd : 0 < d) {q : ℚ} (z : ℤ)
    (h : (z : ℚ) ≤ q) : (z : ℚ) ≤ roundTo d q := by
  have := roundTo_mono d hd h
  rwa [roundTo_intCast d hd z] at this

/-! ## Helper lemmas: substring containment -/

theorem listStartsWith_self_append (l y : List Char) :
    listStartsWith l (l ++ y) = true := by
  induction l with
  | nil => rfl
  | cons a as ih => simp [listStartsWith, ih]

theorem containsSub_self_append (n y : List Char) :
    containsSub n (n ++ y) = true := by
  cases n with
  | nil =>
      cases y with
      | nil => rfl
      | cons c t => simp [containsSub, listStartsWith]
  | cons a as =>
      simp only [containsSub, List.cons_append, Bool.or_eq_true]
      exact Or.inl (listStartsWith_self_append (a :: as) y)

theorem containsSub_append_self (x n y : List Char) :
    containsSub n (x ++ n ++ y) = true := by
  induction x with
  | nil => simpa using containsSub_self_append n y
  | cons c xs ih =>
      simp only [List.cons_append, containsSub, Bool.or_eq_true]
      exact Or.inr (by simpa [List.append_assoc] using ih)

theorem strData_append (a b : String) : (a ++ b).data = a.data ++ b.data := by
  cases a; cases b; rfl

theorem lowerS_data (s : String) : (lowerS s).data = s.data.map Char.toLower := rfl

/-! ## Claim C1 — red-flag handling -/

/-- C1 (counterexample). Processing a message containing a red-flag
phrase does flag the emergency and set priority red / score 10, but it
does **not** move the session into an emergency terminal state: the
stage stays `"greeting"` (there is no `"emergency"` stage), and the very
next message on the same session is processed by the ordinary intake
logic (turn 2, no emergency). -/
theorem C1_counterexample :
    (processMessage o0 s0 "I have chest pain").2.is_emergency = true ∧
    (processMessage o0 s0 "I have chest pain").1.triage_priority = some TriagePriorityT.red ∧
    (processMessage o0 s0 "I have chest pain").1.triage_score = 10 ∧
    (processMessage o0 s0 "I have chest pain").1.current_stage = "greeting" ∧
    (processMessage o0 s0 "I have chest pain").1.current_stage ≠ "emergency" ∧
    (processMessage o0 (processMessage o0 s0 "I have chest pain").1 "hello").2.is_emergency = false ∧
    (processMessage o0 (processMessage o0 s0 "I have chest pain").1 "hello").1.turn_count = 2 := by
  decide

/-- C1 (amended). Any message containing any red-flag phrase in any
letter case makes `_check_red_flags` return true; on such a message
`process_message` sets the session's triage priority to red with score
10 and returns the emergency payload before any extraction or
completion logic runs (the result does not depend on the collaborator
oracle, and the collected info is untouched) — but the session's stage
is left unchanged rather than moved to a terminal emergency state. -/
theorem C1_redflag_behaviour :
    (∀ flag f pre post : String, flag ∈ RED_FLAG_KEYWORDS → lowerS f = flag →
      checkRedFlags (pre ++ f ++ post) = true) ∧
    (∀ (o o' : IntakeOracle) (s : IntakeSessionS) (msg : String),
      checkRedFlags msg = true →
      (processMessage o s msg).2.is_emergency = true ∧
      (processMessage o s msg).2.triage_priority = some "red" ∧
      (processMessage o s msg).2.triage_score = some 10 ∧
      (processMessage o s msg).1.triage_priority = some TriagePriorityT.red ∧
      (processMessage o s msg).1.triage_score = 10 ∧
      (processMessage o s msg).1.current_stage = s.current_stage ∧
      (processMessage o s msg).1.collected_info = s.collected_info ∧
      (processMessage o s msg).1.turn_count = s.turn_count + 1 ∧
      processMessage o s msg = processMessage o' s msg) := by
  constructor
  · intro flag f pre post hmem hlow
    have hdata : (lowerS (pre ++ f ++ post)).data =
        (lowerS pre).data ++ flag.data ++ (lowerS post).data := by
      rw [← hlow]
      simp [lowerS_data, strData_append, List.map_append]
    have hc : strIn flag (lowerS (pre ++ f ++ post)) = true := by
      unfold strIn
      show containsSub flag.data (lowerS (pre ++ f ++ post)).data = true
      rw [hdata]
      exact containsSub_append_self _ _ _
    unfold checkRedFlags
    exact List.any_eq_true.mpr ⟨flag, hmem, hc⟩
  · intro o o' s msg h
    simp [processMessage, h, handleEmergency]

/-- C1 (witness): the amended theorem at concrete inputs. -/
theorem C1_witness :
    checkRedFlags ("My dad has " ++ "CHEST pain" ++ " right now") = true ∧
    (processMessage o0 s0 "severe bleeding").2.is_emergency = true ∧
    (processMessage o0 s0 "severe bleeding").1.current_stage = s0.current_stage :=
  ⟨C1_redflag_behaviour.1 "chest pain" "CHEST pain" "My dad has " " right now"
      (by decide) (by decide),
   (C1_redflag_behaviour.2 o0 o0 s0 "severe bleeding" (by decide)).1,
   (C1_redflag_behaviour.2 o0 o0 s0 "severe bleeding" (by decide)).2.2.2.2.2.1⟩

/-! ## Claim C4 — intake completion predicate -/

/-- C4 (counterexample). A session with chief complaint and duration set
at turn 3 does **not** complete: the additional-information clause
(`associated_symptoms`/`medical_history` present, or turn ≥ 5) fails,
so the completion decision is false, contrary to the claim's example. -/
theorem C4_counterexample :
    (sCCDur 3).collected_info.chief_complaint.isSome = true ∧
    (sCCDur 3).collected_info.duration.isSome = true ∧
    (sCCDur 3).turn_count = 3 ∧
    completionDecision (sCCDur 3) = false := by
  decide

/-- C4 (amended). The completion decision agrees with the spec's
predicate for every session; a session with only chief complaint and
duration set completes exactly from turn 5 on, and a session with only
a chief complaint completes exactly at the forced turn 8. -/
theorem C4_completion :
    (∀ s : IntakeSessionS, completionDecision s = specCompletionPredicate s) ∧
    (∀ t : ℕ, completionDecision (sCCDur t) = decide (5 ≤ t)) ∧
    (∀ t : ℕ, completionDecision (sOnlyCC t) = decide (8 ≤ t)) := by
  refine ⟨fun s => ?_, fun t => ?_, fun t => ?_⟩
  · simp [completionDecision, shouldCompleteIntake, specCompletionPredicate,
      Bool.or_assoc]
  · by_cases h5 : 5 ≤ t <;> by_cases h8 : 8 ≤ t <;> by_cases h3 : 3 ≤ t <;>
      simp [completionDecision, shouldCompleteIntake, sCCDur,
        truthyList, truthyStr, h5, h8, h3] <;> omega
  · by_cases h8 : 8 ≤ t <;>
      simp [completionDecision, shouldCompleteIntake, sOnlyCC,
        truthyList, truthyStr, h8]

/-! ## Claim C7 — triage parse-failure fallback -/

/-- C7. When the triage classification response cannot be parsed,
`_generate_triage` returns the deterministic fallback — priority
yellow, score 5, specialties `["General Medicine"]` — as a total
function (no exception can escape to the caller). -/
theorem C7_triage_parse_fallback :
    generateTriage none =
      { priority := "yellow", score := 5,
        reasoning := "Default assessment - please review",
        specialties := ["General Medicine"], red_flags := [],
        recommendations := [] } := rfl

/-! ## Claim C8 — green-priority slot generation -/

/-- C8 (counterexample). For priority green the generated list is capped
at five slots by the final `slots[:5]`, not the six the claim states. -/
theorem C8_counterexample :
    (getAvailableSlots now0 cardioDoc "green").length = 5 ∧
    (getAvailableSlots now0 cardioDoc "green").length ≠ 6 := by
  decide

/-- C8 (amended). For priority green, slot generation produces the two
fixed times (10:00, 14:00) for each of the next 3 days but returns only
the first five of them (day 3 keeps only its 10:00 slot); and for every
priority the result is independent of the doctor. -/
theorem C8_green_slots :
    (∀ (now : NowInfo) (d : Doctor),
      getAvailableSlots now d "green" =
        [now.dayName 1 ++ " at 10:00", now.dayName 1 ++ " at 14:00",
         now.dayName 2 ++ " at 10:00", now.dayName 2 ++ " at 14:00",
         now.dayName 3 ++ " at 10:00"]) ∧
    (∀ (now : NowInfo) (d d' : Doctor) (p : String),
      getAvailableSlots now d p = getAvailableSlots now d' p) := by
  constructor
  · intro now d
    simp [getAvailableSlots, List.range']
  · intro now d d' p
    rfl

/-! ## Helper lemmas: doctor scoring -/

theorem scoreDoctor_cardio :
    scoreDoctor now0 "Cardiology" "green" none cardioDoc = some cardioMR := by
  norm_num [scoreDoctor, specialtyBase, cardioDoc, now0, cardioMR,
    loadPercentage, getAvailableSlots, estimateWaitTime, roundTo, round_eq,
    List.range'_succ]
  decide

theorem scoreDoctor_gm :
    scoreDoctor now0 "General Medicine" "green" none gmDoc = some gmMR := by
  norm_num [scoreDoctor, specialtyBase, gmDoc, now0, gmMR,
    loadPercentage, getAvailableSlots, estimateWaitTime, roundTo, round_eq,
    List.range'_succ]
  decide

theorem specialtyBase_val {d : Doctor} {req : String} {base : ℚ}
    {reasons : List String} (h : specialtyBase d req = some (base, reasons)) :
    base = 40 ∨ base = 35 := by
  unfold specialtyBase at h
  split at h
  · exact Or.inl (by cases h; rfl)
  · split at h
    · split at h
      · exact Or.inr (by cases h; rfl)
      · cases h
    · cases h

theorem scoreDoctor_eq {now : NowInfo} {req p : String} {lang : Option String}
    {d : Doctor} {mr : MatchResultS}
    (h : scoreDoctor now req p lang d = some mr) :
    ∃ base reasons, specialtyBase d req = some (base, reasons) ∧
      (base = 40 ∨ base = 35) ∧
      (d.current_load < d.max_load ∨ p = "red") ∧
      mr.match_score = roundTo 10 (specMatchScoreFormula d base lang) := by
  unfold scoreDoctor at h
  split at h
  · cases h
  · split at h
    · cases h
    · rename_i hcap
      have hcap' : d.current_load < d.max_load ∨ p = "red" := by
        by_cases hp : p = "red"
        · exact Or.inr hp
        · left
          by_contra hle
          exact hcap ⟨by omega, hp⟩
      cases hb : specialtyBase d req with
      | none => rw [hb] at h; cases h
      | some pair =>
          obtain ⟨base, reasons⟩ := pair
          rw [hb] at h
          refine ⟨base, reasons, rfl, specialtyBase_val hb, hcap', ?_⟩
          cases h
          rfl

/-! ## Claim C3 — match-score formula and the 88.35 example -/

/-- C3 (counterexample). For the spec's Cardiology example the returned
match score is `round(score, 1) = 88.4` (exact decimal semantics; any
one-decimal rounding of 88.35 differs from 88.35), not the claimed
88.35. -/
theorem C3_counterexample :
    (findMatchingDoctors [cardioDoc] now0 "Cardiology" "green" none 5).map
      (fun m => m.match_score) = [442/5] ∧
    (442/5 : ℚ) ≠ 8835/100 := by
  constructor
  · simp [findMatchingDoctors, List.filterMap_cons, scoreDoctor_cardio,
      sortByScoreDesc, insertByScoreDesc, cardioMR]
  · norm_num

/-- C3 (amended). Every doctor surviving the eligibility filter is
scored by exactly the claimed formula — base 40 for an exact specialty
match, else 35 for a subspecialty match, plus `25·(1 − load/max)`, plus
`min(15, experience)`, plus `(rating/5)·10`, plus 5 for a language
match, plus 5 when online — and the returned `match_score` is that
value rounded to one decimal. For the Cardiology example the formula
value is exactly 88.35, so the returned score is `round(88.35, 1)`,
not 88.35 itself. -/
theorem C3_match_score_formula :
    (∀ (now : NowInfo) (req p : String) (lang : Option String) (d : Doctor)
      (mr : MatchResultS) (base : ℚ) (reasons : List String),
      scoreDoctor now req p lang d = some mr →
      specialtyBase d req = some (base, reasons) →
      mr.match_score = roundTo 10 (specMatchScoreFormula d base lang)) ∧
    specMatchScoreFormula cardioDoc 40 none = 8835/100 := by
  constructor
  · intro now req p lang d mr base reasons h hbase
    obtain ⟨base', reasons', hb', _, _, hscore⟩ := scoreDoctor_eq h
    rw [hbase] at hb'
    cases hb'
    exact hscore
  · norm_num [specMatchScoreFormula, cardioDoc]

/-- C3 (witness): the amended theorem at the Cardiology example. -/
theorem C3_witness :
    cardioMR.match_score = roundTo 10 (specMatchScoreFormula cardioDoc 40 none) :=
  C3_match_score_formula.1 now0 "Cardiology" "green" none cardioDoc cardioMR 40
    ["Specialty match: Cardiology"] scoreDoctor_cardio (by decide)

/-! ## Claim C10 — match-score bounds for eligible doctors -/

/-- C10. Every doctor with `0 ≤ rating ≤ 5` that passes the
eligibility filter of `find_matching_doctors` under a non-red triage
priority (which forces `current_load < max_load`) receives a match
score in `[35, 100]`: the base is at least 35 and the load factor is
strictly positive below capacity, while all factors together cannot
exceed `40+25+15+10+5+5 = 100`. -/
theorem C10_score_bounds :
    ∀ (now : NowInfo) (req p : String) (lang : Option String) (d : Doctor)
      (mr : MatchResultS),
      0 ≤ d.rating → d.rating ≤ 5 → p ≠ "red" →
      scoreDoctor now req p lang d = some mr →
      35 ≤ mr.match_score ∧ mr.match_score ≤ 100 := by
  intro now req p lang d mr hr0 hr5 hp h
  obtain ⟨base, reasons, hb, hbase, hcap, hscore⟩ := scoreDoctor_eq h
  have hload : d.current_load < d.max_load := hcap.resolve_right hp
  have hmn : 0 < d.max_load := by omega
  have hm : (0 : ℚ) < d.max_load := by exact_mod_cast hmn
  have hdiv_lt : (d.current_load : ℚ) / d.max_load < 1 := by
    rw [div_lt_one hm]
    exact_mod_cast hload
  have hdiv_nonneg : (0 : ℚ) ≤ (d.current_load : ℚ) / d.max_load :=
    div_nonneg (by positivity) (le_of_lt hm)
  have hbase35 : (35 : ℚ) ≤ base := by
    rcases hbase with h' | h' <;> rw [h'] <;> norm_num
  have hbase40 : base ≤ 40 := by
    rcases hbase with h' | h' <;> rw [h'] <;> norm_num
  have hexp0 : (0 : ℚ) ≤ min 15 (d.experience_years : ℚ) :=
    le_min (by norm_num) (by positivity)
  have hexp15 : min 15 (d.experience_years : ℚ) ≤ 15 := min_le_left _ _
  have hrating10 : d.rating / 5 * 10 ≤ 10 := by linarith
  have hrating0 : 0 ≤ d.rating / 5 * 10 := by positivity
  have honline0 : (0 : ℚ) ≤ (if d.is_online then (5 : ℚ) else 0) := by
    split <;> norm_num
  have honline5 : (if d.is_online then (5 : ℚ) else 0) ≤ 5 := by
    split <;> norm_num
  have hT : 35 ≤ specMatchScoreFormula d base lang ∧
      specMatchScoreFormula d base lang ≤ 100 := by
    cases lang with
    | none =>
        unfold specMatchScoreFormula
        dsimp only
        constructor <;> linarith
    | some l =>
        have hl0 : (0 : ℚ) ≤ (if d.languages.contains l then (5 : ℚ) else 0) := by
          split <;> norm_num
        have hl5 : (if d.languages.contains l then (5 : ℚ) else 0) ≤ 5 := by
          split <;> norm_num
        unfold specMatchScoreFormula
        dsimp only
        constructor <;> linarith
  rw [hscore]
  constructor
  · have h35 : ((35 : ℤ) : ℚ) ≤ roundTo 10 (specMatchScoreFormula d base lang) :=
      intCast_le_roundTo 10 (by norm_num) 35 (by exact_mod_cast hT.1)
    exact_mod_cast h35
  · have h100 : roundTo 10 (specMatchScoreFormula d base lang) ≤ ((100 : ℤ) : ℚ) :=
      roundTo_le_intCast 10 (by norm_num) 100 (by exact_mod_cast hT.2)
    exact_mod_cast h100

/-- C10 (witness): the bounds at the concrete Cardiology doctor. -/
theorem C10_witness :
    35 ≤ cardioMR.match_score ∧ cardioMR.match_score ≤ 100 :=
  C10_score_bounds now0 "Cardiology" "green" none cardioDoc cardioMR
    (by norm_num [cardioDoc]) (by norm_num [cardioDoc]) (by decide)
    scoreDoctor_cardio

/-! ## Claim C6 — fallback cascade of `get_best_match` -/

theorem findMatchingDoctors_gm :
    findMatchingDoctors [gmDoc] now0 "General Medicine" "green" none 5 = [gmMR] := by
  simp [findMatchingDoctors, List.filterMap_cons, scoreDoctor_gm,
    sortByScoreDesc, insertByScoreDesc]

/-- C6. When the primary specialty yields no matches, `get_best_match`
retries the secondary specialty (when one was suggested) and then
General Medicine; when all three are empty it returns, not raises, a
failure result whose `suggested_specialty` is the originally suggested
primary. In particular, requesting symptoms that resolve to Dermatology
against a roster with no dermatologist but one eligible General
Medicine doctor succeeds via the final cascade step and recommends that
doctor. -/
theorem C6_fallback_cascade :
    (∀ (o : Option SpecialtyParsed) (cache : List Doctor) (now : NowInfo)
        (symptoms : List String) (p : String) (lang : Option String),
      findMatchingDoctors cache now
        ((determineSpecialty o symptoms).headD "General Medicine") p lang 5 = [] →
      findMatchingDoctors cache now
        ((determineSpecialty o symptoms).getD 1 "General Medicine") p lang 5 = [] →
      findMatchingDoctors cache now "General Medicine" p lang 5 = [] →
      getBestMatch o cache now symptoms p lang =
        { success := false
          message := some "No available doctors found. Please try again later."
          suggested_specialty :=
            some ((determineSpecialty o symptoms).headD "General Medicine") }) ∧
    (determineSpecialty none ["skin rash"] = ["Dermatology"] ∧
     findMatchingDoctors [gmDoc] now0 "Dermatology" "green" none 5 = [] ∧
     (getBestMatch none [gmDoc] now0 ["skin rash"] "green" none).success = true ∧
     ((getBestMatch none [gmDoc] now0 ["skin rash"] "green" none).recommended.map
        (fun m => m.doctor.id)) = some "g1") := by
  constructor
  · intro o cache now symptoms p lang h1 h2 h3
    rcases hspec : determineSpecialty o symptoms with _ | ⟨a, rest⟩
    · rw [hspec] at h1 h2
      simp at h1 h2
      simp [getBestMatch, hspec, h1, h3]
    · rcases rest with _ | ⟨b, t⟩
      · rw [hspec] at h1 h2
        simp at h1 h2
        simp [getBestMatch, hspec, h1, h3]
      · rw [hspec] at h1 h2
        simp at h1 h2
        simp [getBestMatch, hspec, h1, h2, h3]
  · have hspec : determineSpecialty none ["skin rash"] = ["Dermatology"] := by decide
    have hderm : findMatchingDoctors [gmDoc] now0 "Dermatology" "green" none 5 = [] := by
      decide
    refine ⟨hspec, hderm, ?_, ?_⟩ <;>
      · simp only [getBestMatch, hspec, hderm, findMatchingDoctors_gm,
          List.headD_cons]
        simp [gmMR, gmDoc]

/-- C6 (witness): the failure branch of the cascade at a concrete empty
roster. -/
theorem C6_witness :
    getBestMatch none [] now0 ["skin rash"] "green" none =
      { success := false
        message := some "No available doctors found. Please try again later."
        suggested_specialty :=
          some ((determineSpecialty none ["skin rash"]).headD "General Medicine") } :=
  C6_fallback_cascade.1 none [] now0 ["skin rash"] "green" none rfl rfl rfl

/-! ## Helper lemmas: validator score bounds -/

theorem clamp_bounds {ded : ℚ} (h : 0 ≤ ded) :
    0 ≤ max 0 (1 - ded) ∧ max 0 (1 - ded) ≤ 1 :=
  ⟨le_max_left _ _, max_le (by norm_num) (by linarith)⟩

theorem sectionCheck_fst_nonneg (sec : String × String × ℕ) :
    0 ≤ (sectionCheck sec).1 := by
  obtain ⟨name, content, minLen⟩ := sec
  unfold sectionCheck
  dsimp only
  split
  · norm_num
  · split <;> norm_num

theorem validateStructural_bounds (o : ValOracle) (n : Soap) :
    0 ≤ (validateStructural o n).1 ∧ (validateStructural o n).1 ≤ 1 := by
  simp only [validateStructural]
  refine clamp_bounds ?_
  refine add_nonneg (add_nonneg (add_nonneg ?_ (by positivity)) (by positivity)) ?_
  · refine List.sum_nonneg ?_
    intro x hx
    simp only [List.map_map, List.mem_map, Function.comp] at hx
    obtain ⟨s, _, rfl⟩ := hx
    exact sectionCheck_fst_nonneg s
  · split <;> norm_num

theorem validateClinical_bounds (o : ValOracle) (n : Soap)
    (conv : Option (List (String × String))) (syms : Option (List String)) :
    0 ≤ (validateClinical o n conv syms).1 ∧ (validateClinical o n conv syms).1 ≤ 1 := by
  simp only [validateClinical]
  refine clamp_bounds ?_
  refine add_nonneg (add_nonneg (add_nonneg (by positivity) (by positivity))
    (by positivity)) (by positivity)

theorem compTerm_le (c : String) (k : ℕ) :
    (if c ≠ "" then (min 1 ((c.length : ℚ) / (k * 2))) * (1/4) else 0) ≤ 1/4 := by
  split
  · have h1 : min 1 ((c.length : ℚ) / (k * 2)) ≤ 1 := min_le_left _ _
    calc (min 1 ((c.length : ℚ) / (k * 2))) * (1/4) ≤ 1 * (1/4) :=
          mul_le_mul_of_nonneg_right h1 (by norm_num)
      _ = 1/4 := by norm_num
  · norm_num

theorem compTerm_nonneg (c : String) (k : ℕ) :
    (0 : ℚ) ≤ (if c ≠ "" then (min 1 ((c.length : ℚ) / (k * 2))) * (1/4) else 0) := by
  split
  · have hx : (0:ℚ) ≤ (c.length : ℚ) / (k * 2) := by positivity
    exact mul_nonneg (le_min (by norm_num) hx) (by norm_num)
  · norm_num

theorem calculateCompleteness_bounds (n : Soap) :
    0 ≤ calculateCompleteness n ∧ calculateCompleteness n ≤ 1 := by
  simp only [calculateCompleteness, soapSections, List.map_cons, List.map_nil,
    List.sum_cons, List.sum_nil]
  have h1l := compTerm_le n.subjective 50
  have h2l := compTerm_le n.objective 30
  have h3l := compTerm_le n.assessment 20
  have h4l := compTerm_le n.plan 20
  have h1n := compTerm_nonneg n.subjective 50
  have h2n := compTerm_nonneg n.objective 30
  have h3n := compTerm_nonneg n.assessment 20
  have h4n := compTerm_nonneg n.plan 20
  constructor <;> linarith

theorem roundTo_unit_bounds (d : ℕ) (hd : 0 < d) {q : ℚ} (h0 : 0 ≤ q) (h1 : q ≤ 1) :
    0 ≤ roundTo d q ∧ roundTo d q ≤ 1 := by
  constructor
  · have h := intCast_le_roundTo d hd 0 (by exact_mod_cast h0)
    simpa using h
  · have h := roundTo_le_intCast d hd 1 (by exact_mod_cast h1)
    simpa using h

/-! ## Claim C2 — validator score bounds and weighting -/

/-- C2 (counterexample). For a SOAP note whose only content is a
three-character Subjective, the pre-rounding overall is
`0.4·0.15 + 0.4·1 + 0.2·0.0075 = 0.4615`, and the returned (rounded)
overall 0.46 equals neither the weighted combination of the returned
sub-scores (0.462) nor the exact weighted combination (0.4615): the
two-decimal rounding breaks the claimed exact identity. -/
theorem C2_counterexample :
    (validateSoap oV soapAbc none none).overall_score = 46/100 ∧
    (validateSoap oV soapAbc none none).structural_score = 3/20 ∧
    (validateSoap oV soapAbc none none).clinical_score = 1 ∧
    (validateSoap oV soapAbc none none).completeness_score = 1/100 ∧
    (validateSoap oV soapAbc none none).overall_score ≠
      (2/5) * (validateSoap oV soapAbc none none).structural_score +
      (2/5) * (validateSoap oV soapAbc none none).clinical_score +
      (1/5) * (validateSoap oV soapAbc none none).completeness_score ∧
    (validateSoap oV soapAbc none none).overall_score ≠
      (2/5) * (3/20) + (2/5) * 1 + (1/5) * (3/400) := by
  have h : "abc".length = 3 := by decide
  have hs : (validateStructural oV soapAbc).1 = 3/20 := by
    simp +decide [validateStructural, soapSections, sectionCheck, soapAbc, oV]
    norm_num
  have hc : (validateClinical oV soapAbc none none).1 = 1 := by
    simp +decide [validateClinical, oV, soapAbc, truthyList]
  have hcomp : calculateCompleteness soapAbc = 3/400 := by
    simp +decide [calculateCompleteness, soapSections, soapAbc, h]
    rw [min_eq_right (by norm_num : (3:ℚ)/(50*2) ≤ 1)]
    norm_num
  rcases hsp : validateStructural oV soapAbc with ⟨sPre, sIss⟩
  rcases hcp : validateClinical oV soapAbc none none with ⟨cPre, cIss, cov⟩
  rw [hsp] at hs
  rw [hcp] at hc
  subst hs hc
  simp only [validateSoap, hsp, hcp, hcomp]
  norm_num [roundTo, round_eq]

/-- C2 (amended). All four returned scores always lie in [0, 1]; the
*pre-rounding* overall score is exactly
`0.4·structural + 0.4·clinical + 0.2·completeness`, and the returned
overall is that value rounded to two decimals — so the returned overall
can differ from the weighted combination of the returned sub-scores by
rounding error. -/
theorem C2_scores (o : ValOracle) (n : Soap)
    (conv : Option (List (String × String))) (syms : Option (List String)) :
    (0 ≤ (validateSoap o n conv syms).structural_score ∧
      (validateSoap o n conv syms).structural_score ≤ 1) ∧
    (0 ≤ (validateSoap o n conv syms).clinical_score ∧
      (validateSoap o n conv syms).clinical_score ≤ 1) ∧
    (0 ≤ (validateSoap o n conv syms).completeness_score ∧
      (validateSoap o n conv syms).completeness_score ≤ 1) ∧
    (0 ≤ (validateSoap o n conv syms).overall_score ∧
      (validateSoap o n conv syms).overall_score ≤ 1) ∧
    (validateSoap o n conv syms).overall_score =
      roundTo 100 ((2/5) * (validateStructural o n).1 +
        (2/5) * (validateClinical o n conv syms).1 +
        (1/5) * calculateCompleteness n) := by
  have hsb := validateStructural_bounds o n
  have hcb := validateClinical_bounds o n conv syms
  have hcompb := calculateCompleteness_bounds n
  rcases hsp : validateStructural o n with ⟨sPre, sIss⟩
  rcases hcp : validateClinical o n conv syms with ⟨cPre, cIss, cov⟩
  rw [hsp] at hsb
  rw [hcp] at hcb
  simp only [validateSoap, hsp, hcp]
  refine ⟨roundTo_unit_bounds 100 (by norm_num) hsb.1 hsb.2,
    roundTo_unit_bounds 100 (by norm_num) hcb.1 hcb.2,
    roundTo_unit_bounds 100 (by norm_num) hcompb.1 hcompb.2,
    roundTo_unit_bounds 100 (by norm_num) (by linarith [hsb.1, hcb.1, hcompb.1])
      (by linarith [hsb.2, hcb.2, hcompb.2]), trivial⟩

/-! ## Claim C5 — the all-empty SOAP note -/

/-- C5. Validating a SOAP note with all four sections empty yields
structural score 0 and completeness score 0, raises (at least) the four
missing-section error issues, and is never valid — for every
collaborator oracle and every symptoms/conversation input. -/
theorem C5_empty_soap (o : ValOracle) (conv : Option (List (String × String)))
    (syms : Option (List String)) :
    (validateSoap o soapEmpty conv syms).structural_score = 0 ∧
    (validateSoap o soapEmpty conv syms).completeness_score = 0 ∧
    4 ≤ ((validateSoap o soapEmpty conv syms).issues.filter
      (fun i => i.level = VLevel.error)).length ∧
    (validateSoap o soapEmpty conv syms).is_valid = false := by
  have h1 : (validateStructural o soapEmpty).1 = 0 := by
    simp +decide [validateStructural, soapSections, sectionCheck, soapEmpty]
    norm_num
  have h2 : ((validateStructural o soapEmpty).2.filter
      (fun i => i.level = VLevel.error)).length = 4 := by
    simp +decide [validateStructural, soapSections, sectionCheck, soapEmpty]
  have h3 : (validateStructural o soapEmpty).2.any
      (fun i => i.level = VLevel.error) = true := by
    simp +decide [validateStructural, soapSections, sectionCheck, soapEmpty]
  have hcomp : calculateCompleteness soapEmpty = 0 := by
    simp [calculateCompleteness, soapSections, soapEmpty]
  rcases hsp : validateStructural o soapEmpty with ⟨sPre, sIss⟩
  rcases hcp : validateClinical o soapEmpty conv syms with ⟨cPre, cIss, cov⟩
  rw [hsp] at h1 h2 h3
  subst h1
  simp only [validateSoap, hsp, hcp, hcomp]
  refine ⟨by norm_num [roundTo, round_eq], by norm_num [roundTo, round_eq], ?_, ?_⟩
  · simp only [List.filter_append, List.length_append, h2]
    omega
  · simp [List.any_append, h3]

/-! ## Helper lemmas: SequenceMatcher theory -/

theorem cpl_le_left (a : List Char) : ∀ b, cpl a b ≤ a.length := by
  induction a with
  | nil => intro b; cases b <;> simp [cpl]
  | cons x xs ih =>
      intro b
      cases b with
      | nil => simp [cpl]
      | cons y ys =>
          by_cases h : x = y
          · simpa [cpl, h] using ih ys
          · simp [cpl, h]

theorem cpl_le_right (a : List Char) : ∀ b, cpl a b ≤ b.length := by
  induction a with
  | nil => intro b; cases b <;> simp [cpl]
  | cons x xs ih =>
      intro b
      cases b with
      | nil => simp [cpl]
      | cons y ys =>
          by_cases h : x = y
          · simpa [cpl, h] using ih ys
          · simp [cpl, h]

theorem cpl_self (a : List Char) : cpl a a = a.length := by
  induction a with
  | nil => rfl
  | cons x xs ih => simp [cpl, ih]

theorem cpl_pos_common {a b : List Char} (h : 0 < cpl a b) :
    ∃ c, c ∈ a ∧ c ∈ b := by
  cases a with
  | nil => simp [cpl] at h
  | cons x xs =>
      cases b with
      | nil => simp [cpl] at h
      | cons y ys =>
          by_cases hxy : x = y
          · exact ⟨x, List.mem_cons_self _ _, by rw [hxy]; exact List.mem_cons_self _ _⟩
          · simp [cpl, hxy] at h

theorem kOf_le_left (a b : List Char) (p : ℕ × ℕ) : kOf a b p ≤ a.length := by
  unfold kOf
  exact le_trans (cpl_le_left _ _) (by simp [List.length_drop])

theorem foldl_flmStep_const (a b : List Char) (st : ℕ × ℕ × ℕ)
    (l : List (ℕ × ℕ)) (h : ∀ p ∈ l, kOf a b p ≤ st.2.2) :
    l.foldl (flmStep a b) st = st := by
  induction l with
  | nil => rfl
  | cons p ps ih =>
      have hp := h p (List.mem_cons_self _ _)
      have hstep : flmStep a b st p = st := by
        unfold flmStep
        simp [Nat.not_lt.mpr hp]
      rw [List.foldl_cons, hstep]
      exact ih (fun q hq => h q (List.mem_cons_of_mem _ hq))

theorem pairsUpTo_eq_cons (la lb : ℕ) :
    ∃ rest, pairsUpTo la lb = (0, 0) :: rest := by
  unfold pairsUpTo
  rw [List.range_succ_eq_map, List.flatMap_cons, List.range_succ_eq_map,
    List.map_cons, List.cons_append]
  exact ⟨_, rfl⟩

theorem flm_self (a : List Char) : flm a a = (0, 0, a.length) := by
  obtain ⟨rest, hrest⟩ := pairsUpTo_eq_cons a.length a.length
  unfold flm
  rw [hrest, List.foldl_cons]
  have hstep : flmStep a a (0, 0, 0) (0, 0) = (0, 0, a.length) := by
    rcases Nat.eq_zero_or_pos a.length with h0 | hpos
    · simp [flmStep, kOf, cpl_self, h0]
    · simp [flmStep, kOf, cpl_self, hpos]
  rw [hstep]
  exact foldl_flmStep_const a a _ rest (fun p hp => kOf_le_left a a p)

theorem flm_spec (a b : List Char) :
    (flm a b).2.2 ≤ (a.drop (flm a b).1).length ∧
    (flm a b).2.2 ≤ (b.drop (flm a b).2.1).length := by
  unfold flm
  suffices h : ∀ (l : List (ℕ × ℕ)) (st : ℕ × ℕ × ℕ),
      st.2.2 ≤ (a.drop st.1).length → st.2.2 ≤ (b.drop st.2.1).length →
      (l.foldl (flmStep a b) st).2.2 ≤ (a.drop (l.foldl (flmStep a b) st).1).length ∧
      (l.foldl (flmStep a b) st).2.2 ≤ (b.drop (l.foldl (flmStep a b) st).2.1).length by
    exact h _ (0, 0, 0) (by simp) (by simp)
  intro l
  induction l with
  | nil => intro st h1 h2; exact ⟨h1, h2⟩
  | cons p ps ih =>
      intro st h1 h2
      rw [List.foldl_cons]
      by_cases hlt : st.2.2 < kOf a b p
      · have hstep : flmStep a b st p = (p.1, p.2, kOf a b p) := by
          unfold flmStep
          simp [hlt]
        rw [hstep]
        exact ih _ (cpl_le_left _ _) (cpl_le_right _ _)
      · have hstep : flmStep a b st p = st := by
          unfold flmStep
          simp [hlt]
        rw [hstep]
        exact ih _ h1 h2

theorem flm_disjoint {a b : List Char} (h : ∀ c ∈ a, c ∉ b) :
    (flm a b).2.2 = 0 := by
  have hk : ∀ p : ℕ × ℕ, kOf a b p ≤ 0 := by
    intro p
    by_contra hc
    push_neg at hc
    obtain ⟨c, hca, hcb⟩ := cpl_pos_common hc
    exact h c (List.mem_of_mem_drop hca) (List.mem_of_mem_drop hcb)
  unfold flm
  rw [foldl_flmStep_const a b (0, 0, 0) _ (fun p _ => hk p)]

theorem matchesAux_nil_left (f : ℕ) (b : List Char) : matchesAux f [] b = 0 := by
  cases f <;> rfl

theorem matchesAux_nil_right (f : ℕ) (a : List Char) : matchesAux f a [] = 0 := by
  cases f with
  | zero => rfl
  | succ f' => cases a <;> rfl

theorem matchesAux_le (fuel : ℕ) :
    ∀ a b : List Char, matchesAux fuel a b ≤ min a.length b.length := by
  induction fuel with
  | zero => intro a b; simp [matchesAux]
  | succ f ih =>
      intro a b
      cases a with
      | nil => simp [matchesAux_nil_left]
      | cons x xs =>
          cases b with
          | nil => simp [matchesAux_nil_right]
          | cons y ys =>
              have hspec := flm_spec (x :: xs) (y :: ys)
              rcases hf : flm (x :: xs) (y :: ys) with ⟨i, jk⟩
              rcases jk with ⟨j, k⟩
              rw [hf] at hspec
              simp only [List.length_drop] at hspec
              simp only [matchesAux, hf]
              split
              · simp
              · have hl := ih ((x :: xs).take i) ((y :: ys).take j)
                have hr := ih ((x :: xs).drop (i + k)) ((y :: ys).drop (j + k))
                simp only [List.length_take, List.length_drop] at hl hr
                omega

theorem matchesAux_self (f : ℕ) (a : List Char) (hf : 1 ≤ f) :
    matchesAux f a a = a.length := by
  cases f with
  | zero => omega
  | succ f' =>
      cases a with
      | nil => rfl
      | cons x xs =>
          simp only [matchesAux, flm_self]
          have hne : (x :: xs).length ≠ 0 := by simp
          rw [if_neg hne]
          simp [matchesAux_nil_left, matchesAux_nil_right, List.drop_length]

theorem similarity_self (a : List Char) : similarity a a = 1 := by
  unfold similarity matchesTotal
  rcases Nat.eq_zero_or_pos a.length with h0 | hpos
  · simp [h0]
  · have hne : a.length + a.length ≠ 0 := by omega
    rw [if_neg hne, matchesAux_self _ _ (by omega)]
    have hq : ((a.length : ℚ)) ≠ 0 := by exact_mod_cast hpos.ne'
    field_simp
    ring

theorem similarity_disjoint {a b : List Char} (h : ∀ c ∈ a, c ∉ b)
    (hT : a.length + b.length ≠ 0) : similarity a b = 0 := by
  unfold similarity matchesTotal
  rw [if_neg hT]
  have hm : matchesAux (a.length + b.length) a b = 0 := by
    cases hfuel : a.length + b.length with
    | zero => exact absurd hfuel hT
    | succ f =>
        cases a with
        | nil => exact matchesAux_nil_left _ _
        | cons x xs =>
            cases b with
            | nil => exact matchesAux_nil_right _ _
            | cons y ys =>
                have hk := flm_disjoint h
                rcases hf : flm (x :: xs) (y :: ys) with ⟨i, jk⟩
                rcases jk with ⟨j, k⟩
                rw [hf] at hk
                simp only at hk
                simp only [matchesAux, hf]
                rw [if_pos hk]
  rw [hm]
  simp

theorem similarity_nonneg (a b : List Char) : 0 ≤ similarity a b := by
  unfold similarity
  split
  · norm_num
  · positivity

theorem similarity_le_one (a b : List Char) : similarity a b ≤ 1 := by
  unfold similarity
  split
  · norm_num
  · rename_i hT
    have hM := matchesAux_le (a.length + b.length) a b
    have hTpos : (0 : ℚ) < (a.length : ℚ) + (b.length : ℚ) := by
      have : 0 < a.length + b.length := Nat.pos_of_ne_zero hT
      exact_mod_cast this
    rw [div_le_one hTpos]
    have h2 : 2 * matchesTotal a b ≤ a.length + b.length := by
      unfold matchesTotal
      omega
    calc 2 * (matchesTotal a b : ℚ) = ((2 * matchesTotal a b : ℕ) : ℚ) := by push_cast; ring
      _ ≤ ((a.length + b.length : ℕ) : ℚ) := by exact_mod_cast h2
      _ = (a.length : ℚ) + (b.length : ℚ) := by push_cast; ring

/-! ## Claim C9 — edit distance of `log_edit` -/

set_option maxRecDepth 8192 in
/-- C9 (counterexample). Two standard four-section SOAP notes whose
section texts are disjoint ("a" everywhere vs "b" everywhere) have edit
distance `round(1 − 3/7, 3) = 0.571`, not 1: the `" "` separators of
`" ".join(values)` are common to both joined strings, so the matcher
always finds the three spaces. -/
theorem C9_counterexample :
    calculateEditDistance dictA dictB = 571/1000 ∧ (571/1000 : ℚ) ≠ 1 := by
  have hM : matchesTotal (joinVals dictA).toList (joinVals dictB).toList = 3 := by
    decide
  have hla : (joinVals dictA).toList.length = 7 := by decide
  have hlb : (joinVals dictB).toList.length = 7 := by decide
  constructor
  · unfold calculateEditDistance similarity
    rw [hla, hlb, hM]
    norm_num [roundTo, round_eq]
  · norm_num

/-- C9 (amended). The edit distance `1 − SequenceMatcher.ratio` of the
joined section texts, rounded to three decimals, always lies in [0, 1];
it is 0 whenever the two SOAP dicts are equal, and it is 1 whenever the
two *joined* value strings share no character (and are not both empty),
e.g. for single-section notes with disjoint texts. Disjoint section
texts alone do not guarantee distance 1: for standard four-section
notes the `" "` join separators appear in both joined strings (see the
counterexample, which yields 0.571). -/
theorem C9_edit_distance (original edited : SoapDict) :
    (0 ≤ calculateEditDistance original edited ∧
      calculateEditDistance original edited ≤ 1) ∧
    (original = edited → calculateEditDistance original edited = 0) ∧
    (disjointChars (joinVals original) (joinVals edited) = true →
      (joinVals original).toList.length + (joinVals edited).toList.length ≠ 0 →
      calculateEditDistance original edited = 1) := by
  refine ⟨?_, ?_, ?_⟩
  · unfold calculateEditDistance
    exact roundTo_unit_bounds 1000 (by norm_num)
      (by linarith [similarity_le_one (joinVals original).toList (joinVals edited).toList])
      (by linarith [similarity_nonneg (joinVals original).toList (joinVals edited).toList])
  · intro heq
    subst heq
    unfold calculateEditDistance
    rw [similarity_self]
    norm_num [roundTo, round_eq]
  · intro hdis hT
    have hd : ∀ c ∈ (joinVals original).toList, c ∉ (joinVals edited).toList := by
      intro c hc
      have := List.all_eq_true.mp hdis c hc
      simpa using this
    unfold calculateEditDistance
    rw [similarity_disjoint hd hT]
    norm_num [roundTo, round_eq]

/-- C9 (witness): the amended theorem at concrete single-section dicts
(equal dicts give 0; disjoint joined texts give 1). -/
theorem C9_witness :
    calculateEditDistance dictC dictC = 0 ∧
    calculateEditDistance dictC dictD = 1 :=
  ⟨(C9_edit_distance dictC dictC).2.1 rfl,
   (C9_edit_distance dictC dictD).2.2 (by decide) (by decide)⟩
